import Mathlib

/-!
# Record Gateway (`src/backend/server.js`)

A shallow embedding of the Express request handlers of `server.js` and of the
cross-origin callback, followed by the properties of the request/response
contract.

* JSON values are the inductive type `JVal`; a property read on an object that
  lacks the key yields `JVal.undefined`, as in JavaScript.
* The Supabase client is a parameter of every handler: a function that receives
  the query built by the handler and the state of the remote side, and gives
  back the pair `{ data, error }` together with the new state.
* `try { ... } catch (error) { ... }` is an `Except` value that `catchError`
  turns into the 500 answer of the `catch` block.
* `new Date().toISOString()` is the clock reading `now`, an input of the update
  handler.
* Statements about the contents of the remote table are made over `refClient`,
  a reference model of the remote store and of its client.
-/

namespace Dazzzshboard

/-! ## JSON values and JavaScript truthiness -/

/-- JavaScript values that can be found in a parsed JSON body or in a result of
the remote client.  Numeric payloads are modelled by integers: the handlers only
test whether a number is zero. -/
inductive JVal where
  | undefined
  | null
  | bool (b : Bool)
  | num (n : Int)
  | str (s : String)
  | arr (items : List JVal)
  | obj (fields : List (String × JVal))

/-- A JSON object: its own properties, in order. -/
abbrev JObj := List (String × JVal)

/-- Property read `o.key`: the value of the first binding of `key`, and
`undefined` when the object has no such property. -/
def JObj.get : JObj → String → JVal
  | [], _ => JVal.undefined
  | (k, v) :: rest, key => if k = key then v else JObj.get rest key

/-- JavaScript `ToBoolean`: `undefined`, `null`, `false`, `0` and `""` are
falsy and every other value, arrays and objects included, is truthy. -/
def truthy : JVal → Bool
  | JVal.undefined => false
  | JVal.null => false
  | JVal.bool b => b
  | JVal.num n => decide (n ≠ 0)
  | JVal.str s => decide (s ≠ "")
  | JVal.arr _ => true
  | JVal.obj _ => true

/-- The comparison `v === undefined`. -/
def isUndefined : JVal → Bool
  | JVal.undefined => true
  | _ => false

/-! ## The remote client -/

/-- The error object of a remote result; `message` is the text that the
handlers hand to the caller. -/
structure PostgrestError where
  message : String
  code : String
deriving DecidableEq

/-- The pair `{ data, error }` that an awaited query resolves to; `error` is
`none` for JavaScript `null`. -/
structure RemoteResult where
  data : JVal
  error : Option PostgrestError

/-- The operation of a query. -/
inductive Verb where
  | select (columns : String)
  | insert (rows : List JObj)
  | update (payload : JObj)
  | delete

/-- A query as assembled by the builder chain that starts at `supabase.from`. -/
structure Query where
  table : String
  verb : Verb
  filters : List (String × String)
  ordering : Option (String × Bool)
  returnsRows : Bool
  expectOne : Bool

/-- The builder `supabase.from(table)`. -/
structure Table where
  name : String

/-- Builder `supabase.from(name)`. -/
def supabaseFrom (name : String) : Table := ⟨name⟩

/-- Builder `.select(columns)` on a table. -/
def Table.select (t : Table) (columns : String) : Query :=
  ⟨t.name, Verb.select columns, [], none, false, false⟩

/-- Builder `.insert(rows)`. -/
def Table.insert (t : Table) (rows : List JObj) : Query :=
  ⟨t.name, Verb.insert rows, [], none, false, false⟩

/-- Builder `.update(payload)`. -/
def Table.update (t : Table) (payload : JObj) : Query :=
  ⟨t.name, Verb.update payload, [], none, false, false⟩

/-- Builder `.delete()`. -/
def Table.delete (t : Table) : Query :=
  ⟨t.name, Verb.delete, [], none, false, false⟩

/-- Builder `.order(column, { ascending })`. -/
def Query.order (q : Query) (column : String) (ascending : Bool) : Query :=
  { q with ordering := some (column, ascending) }

/-- Builder `.eq(column, value)`. -/
def Query.eq (q : Query) (column value : String) : Query :=
  { q with filters := q.filters ++ [(column, value)] }

/-- Builder `.select()` after a mutation: the affected rows are returned. -/
def Query.select (q : Query) : Query :=
  { q with returnsRows := true }

/-- Builder `.single()`. -/
def Query.single (q : Query) : Query :=
  { q with expectOne := true }

/-- The remote client over a remote state `σ`: awaiting a query gives a result
and the next state. -/
abbrev Client (σ : Type) := Query → σ → RemoteResult × σ

/-! ## Responses -/

/-- Body of an HTTP response: nothing (`res.send()`) or a JSON value
(`res.json(v)`). -/
inductive Body where
  | empty
  | json (v : JVal)

/-- An HTTP response. -/
structure Response where
  status : Nat
  body : Body

/-- What a handler run leaves behind: the response, the remote state, the
queries that were awaited and the lines written with `console.error`. -/
structure Outcome (σ : Type) where
  response : Response
  store : σ
  issued : List Query
  logged : List (String × PostgrestError)

/-- Result of a `try` block: a response, or the error that was thrown. -/
structure Attempt (σ : Type) where
  result : Except PostgrestError Response
  store : σ
  issued : List Query

/-- The `catch (error)` block shared by the four handlers:
`console.error(label, error); res.status(500).json({ error: error.message })`. -/
def catchError {σ : Type} (label : String) (t : Attempt σ) : Outcome σ :=
  match t.result with
  | Except.ok r => ⟨r, t.store, t.issued, []⟩
  | Except.error e =>
    ⟨⟨500, Body.json (JVal.obj [("error", JVal.str e.message)])⟩, t.store, t.issued, [(label, e)]⟩

/-! ## The handlers -/

/-- Query of `GET /api/datos` (lines 47-50). -/
def listQuery : Query :=
  ((supabaseFrom "datos").select "*").order "id" true

/-- Handler `app.get('/api/datos', ...)` (lines 45-58). -/
def getDatos {σ : Type} (supabase : Client σ) (s : σ) : Outcome σ :=
  catchError "Error al obtener datos:" <|
    let r := supabase listQuery s
    match r.1.error with
    | some error => ⟨Except.error error, r.2, [listQuery]⟩
    | none => ⟨Except.ok ⟨200, Body.json r.1.data⟩, r.2, [listQuery]⟩

/-- Query of `POST /api/datos` (lines 69-73). -/
def insertQuery (nombre valor : JVal) : Query :=
  (((supabaseFrom "datos").insert [[("nombre", nombre), ("valor", valor)]]).select).single

/-- Handler `app.post('/api/datos', ...)` (lines 61-81). -/
def postDatos {σ : Type} (supabase : Client σ) (body : JObj) (s : σ) : Outcome σ :=
  catchError "Error al crear dato:" <|
    let nombre := body.get "nombre"
    let valor := body.get "valor"
    if !truthy nombre || isUndefined valor then
      ⟨Except.ok ⟨400, Body.json (JVal.obj [("error", JVal.str "Nombre y valor son requeridos")])⟩,
        s, []⟩
    else
      let r := supabase (insertQuery nombre valor) s
      match r.1.error with
      | some error => ⟨Except.error error, r.2, [insertQuery nombre valor]⟩
      | none => ⟨Except.ok ⟨201, Body.json r.1.data⟩, r.2, [insertQuery nombre valor]⟩

/-- Query of `PUT /api/datos/:id` (lines 89-98). -/
def updateQuery (id : String) (nombre valor : JVal) (now : String) : Query :=
  ((((supabaseFrom "datos").update
    [("nombre", nombre), ("valor", valor), ("updated_at", JVal.str now)]).eq "id" id).select).single

/-- Handler `app.put('/api/datos/:id', ...)` (lines 84-111); `now` is the
value of `new Date().toISOString()`. -/
def putDatos {σ : Type} (supabase : Client σ) (id : String) (body : JObj) (now : String)
    (s : σ) : Outcome σ :=
  catchError "Error al actualizar dato:" <|
    let nombre := body.get "nombre"
    let valor := body.get "valor"
    let r := supabase (updateQuery id nombre valor now) s
    match r.1.error with
    | some error => ⟨Except.error error, r.2, [updateQuery id nombre valor now]⟩
    | none =>
      if !truthy r.1.data then
        ⟨Except.ok ⟨404, Body.json (JVal.obj [("error", JVal.str "Dato no encontrado")])⟩,
          r.2, [updateQuery id nombre valor now]⟩
      else
        ⟨Except.ok ⟨200, Body.json r.1.data⟩, r.2, [updateQuery id nombre valor now]⟩

/-- Query of `DELETE /api/datos/:id` (lines 118-121). -/
def deleteQuery (id : String) : Query :=
  ((supabaseFrom "datos").delete).eq "id" id

/-- Handler `app.delete('/api/datos/:id', ...)` (lines 114-129). -/
def deleteDatos {σ : Type} (supabase : Client σ) (id : String) (s : σ) : Outcome σ :=
  catchError "Error al eliminar dato:" <|
    let r := supabase (deleteQuery id) s
    match r.1.error with
    | some error => ⟨Except.error error, r.2, [deleteQuery id]⟩
    | none => ⟨Except.ok ⟨204, Body.empty⟩, r.2, [deleteQuery id]⟩

/-! ## Cross-origin callback -/

/-- The allow-list of lines 18-23. -/
def allowedOrigins : List String :=
  ["http://localhost:5173", "http://localhost:5174", "http://localhost:4173",
    "https://egarpxmaster.github.io"]

/-- Arguments handed to `callback(err, allow)`. -/
structure CorsDecision where
  err : Option String
  allow : Bool
deriving DecidableEq

/-- The test of line 28, `!origin || allowedOrigins.some(allowed =>
origin.startsWith(allowed))`; `origin` is `none` when the request carries no
`Origin` header. -/
def originListed (allowed : List String) : Option String → Bool
  | none => true
  | some o => decide (o = "") || allowed.any (fun a => a.isPrefixOf o)

/-- The `origin` function of the `cors` options (lines 26-33), over an
allow-list: both branches of the test call `callback(null, true)`. -/
def corsOrigin (allowed : List String) (origin : Option String) : CorsDecision :=
  if originListed allowed origin then
    ⟨none, true⟩
  else
    ⟨none, true⟩

/-! ## Requests -/

/-- The four requests under `/api/datos`. -/
inductive Request where
  | list
  | create (body : JObj)
  | update (id : String) (body : JObj) (now : String)
  | delete (id : String)

/-- Routing of a request to its handler. -/
def handle {σ : Type} (supabase : Client σ) : Request → σ → Outcome σ
  | Request.list, s => getDatos supabase s
  | Request.create body, s => postDatos supabase body s
  | Request.update id body now, s => putDatos supabase id body now s
  | Request.delete id, s => deleteDatos supabase id s

/-- The remote state after a sequence of requests handled one after the other. -/
def finalStore {σ : Type} (supabase : Client σ) : List Request → σ → σ
  | [], s => s
  | r :: rest, s => finalStore supabase rest (handle supabase r s).store

/-- Every request of a sequence paired with its response. -/
def exchanges {σ : Type} (supabase : Client σ) : List Request → σ → List (Request × Response)
  | [], _ => []
  | r :: rest, s =>
    (r, (handle supabase r s).response) :: exchanges supabase rest (handle supabase r s).store

/-- A create or a delete request. -/
def Request.isCreateOrDelete : Request → Bool
  | Request.create _ => true
  | Request.delete _ => true
  | _ => false

/-! ## Reference model of the remote store

The remote store and its client library are external to the repository, which
only calls them.  The definitions of this section model them: the table after
the data model and the collaborator interface of the specification (filtered
select with ascending sort, insert-returning-one, update-by-id-returning-one,
delete-by-id), the shaping of results after the contract of the client calls
`.select()` and `.single()` that the handlers make. -/

/-- Modelled from the spec: a row of table `datos`, with the columns named in
the data model. -/
structure Row where
  id : Nat
  nombre : JVal
  valor : JVal
  updated_at : JVal

/-- Modelled from the spec: the JSON object that the client returns for a row. -/
def Row.toJson (r : Row) : JVal :=
  JVal.obj [("id", JVal.num r.id), ("nombre", r.nombre), ("valor", r.valor),
    ("updated_at", r.updated_at)]

/-- Modelled from the spec: the remote tabular data store (an external
collaborator, no source in the repository): the rows of table `datos` in
storage order, and the next value of the sequence behind the store-assigned
`id`. -/
structure Store where
  rows : List Row
  nextId : Nat

/-- Modelled from the spec: the store invariant: `id` is unique and every `id`
in the table was handed out by the sequence. -/
def Store.WF (s : Store) : Prop :=
  (s.rows.map Row.id).Nodup ∧ ∀ r ∈ s.rows, r.id < s.nextId

instance (s : Store) : Decidable s.WF := by
  unfold Store.WF; infer_instance

/-- Modelled from the spec: rows in ascending order of `id`. -/
def sortById (rows : List Row) : List Row :=
  rows.insertionSort (fun a b => a.id ≤ b.id)

/-- Modelled from the spec: the error of a query that asked for one object
with `.single()` and whose result does not have exactly one row. -/
def notOneRow : PostgrestError :=
  ⟨"JSON object requested, multiple (or no) rows returned", "PGRST116"⟩

/-- Modelled from the spec: the error for a filter value on `id` that is not an
integer literal. -/
def invalidId (v : String) : PostgrestError :=
  ⟨"invalid input syntax for type bigint: \"" ++ v ++ "\"", "22P02"⟩

/-- Modelled from the spec: the error for a column that the table does not have. -/
def unknownColumn (c : String) : PostgrestError :=
  ⟨"column datos." ++ c ++ " does not exist", "42703"⟩

/-- Modelled from the spec: the error for a table other than `datos`. -/
def unknownTable (t : String) : PostgrestError :=
  ⟨"relation \"public." ++ t ++ "\" does not exist", "42P01"⟩

/-- Modelled from the spec: the row predicate of a list of `.eq` filters; only
`id` can be filtered on, and `idOf` reads the filter value, a string taken from
the request path, as an integer literal. -/
def rowFilter (idOf : String → Option Nat) :
    List (String × String) → Except PostgrestError (Row → Bool)
  | [] => Except.ok (fun _ => true)
  | (c, v) :: rest =>
    if c = "id" then
      match idOf v with
      | none => Except.error (invalidId v)
      | some n =>
        match rowFilter idOf rest with
        | Except.error e => Except.error e
        | Except.ok f => Except.ok (fun r => decide (r.id = n) && f r)
    else Except.error (unknownColumn c)

/-- Modelled from the spec: a value as it reaches a column: a property whose
value is `undefined` is dropped when the payload is serialised, so an inserted
column takes `null`. -/
def columnOf (v : JVal) : JVal :=
  if isUndefined v then JVal.null else v

/-- Modelled from the spec: insert-returning: every payload gets the next `id`
of the sequence and is appended to the table; the new rows are returned. -/
def insertRows : Store → List JObj → Store × List Row
  | s, [] => (s, [])
  | s, o :: rest =>
    let r : Row := ⟨s.nextId, columnOf (o.get "nombre"), columnOf (o.get "valor"), JVal.null⟩
    let out := insertRows ⟨s.rows ++ [r], s.nextId + 1⟩ rest
    (out.1, r :: out.2)

/-- Modelled from the spec: a new column value over the old one; a property
that is `undefined` is not on the wire and leaves the column as it was. -/
def overwrite (new old : JVal) : JVal :=
  if isUndefined new then old else new

/-- Modelled from the spec: update of one row with a payload; `id` is never
written. -/
def applyPayload (payload : JObj) (r : Row) : Row :=
  { r with
    nombre := overwrite (payload.get "nombre") r.nombre
    valor := overwrite (payload.get "valor") r.valor
    updated_at := overwrite (payload.get "updated_at") r.updated_at }

/-- Modelled from the spec: the pair `{ data, error }` for the rows a statement
produced.  With `.single()` the result must be exactly one row, which is
returned as one object; for no row or several rows the client reports the
error `notOneRow` (it is `.maybeSingle()` that answers no row with `data` null
and no error).  Without `.single()` the rows are returned as an array when rows
were asked for, and `data` is `null` when they were not. -/
def shape (q : Query) (rows : List Row) : RemoteResult :=
  if q.expectOne then
    match rows with
    | [r] => ⟨r.toJson, none⟩
    | _ => ⟨JVal.null, some notOneRow⟩
  else if q.returnsRows then ⟨JVal.arr (rows.map Row.toJson), none⟩
  else ⟨JVal.null, none⟩

/-- Modelled from the spec: a statement with its outcome: when the result
reports an error the statement is rolled back and the store stays as it was. -/
def commit (q : Query) (s s' : Store) (rows : List Row) : RemoteResult × Store :=
  match (shape q rows).error with
  | some e => (⟨JVal.null, some e⟩, s)
  | none => (shape q rows, s')

/-- Modelled from the spec: the client of the remote store, which the
repository only calls: filtered select with sort on `id`, insert-returning,
update-by-id-returning and delete-by-id over `Store`, with the result shaped by
`.select()` and `.single()` as in `shape`. -/
def refClient (idOf : String → Option Nat) : Client Store := fun q s =>
  if q.table = "datos" then
    match rowFilter idOf q.filters with
    | Except.error e => (⟨JVal.null, some e⟩, s)
    | Except.ok f =>
      match q.verb with
      | Verb.select _ =>
        match q.ordering with
        | none => commit { q with returnsRows := true } s s (s.rows.filter f)
        | some (c, asc) =>
          if c = "id" then
            commit { q with returnsRows := true } s s
              (if asc then sortById (s.rows.filter f) else (sortById (s.rows.filter f)).reverse)
          else (⟨JVal.null, some (unknownColumn c)⟩, s)
      | Verb.insert payloads =>
        commit q s (insertRows s payloads).1 (insertRows s payloads).2
      | Verb.update payload =>
        commit q s
          ⟨s.rows.map (fun r => if f r then applyPayload payload r else r), s.nextId⟩
          ((s.rows.filter f).map (applyPayload payload))
      | Verb.delete =>
        commit q s ⟨s.rows.filter (fun r => !f r), s.nextId⟩ (s.rows.filter f)
  else (⟨JVal.null, some (unknownTable q.table)⟩, s)

/-- Modelled from the spec: an integer literal in decimal digits, the reading of
`id` filter values used in the examples. -/
def decimalId (v : String) : Option Nat :=
  match v.data with
  | [] => none
  | cs =>
    if cs.all (fun c => decide ('0' ≤ c) && decide (c ≤ '9')) then
      some (cs.foldl (fun n c => 10 * n + (c.toNat - 48)) 0)
    else none

/-! ## Reading lists of records -/

/-- The `id` of a record given as a JSON object. -/
def jsonId : JVal → Option Int
  | JVal.obj fields =>
    match JObj.get fields "id" with
    | JVal.num n => some n
    | _ => none
  | _ => none

/-- Two records in ascending order of `id`. -/
def idLe (a b : JVal) : Prop :=
  match jsonId a, jsonId b with
  | some i, some j => i ≤ j
  | _, _ => False

/-- The records left by a sequence of answered requests, read off the
exchanges alone: a create answered 201 adds the record of its response, a
delete answered 204 removes the records whose `id` is the one of its path,
and every other exchange leaves the records as they are. -/
def survivors (idOf : String → Option Nat) : List JVal → List (Request × Response) → List JVal
  | recs, [] => recs
  | recs, (Request.create _, ⟨201, Body.json record⟩) :: rest =>
    survivors idOf (recs ++ [record]) rest
  | recs, (Request.delete id, ⟨204, _⟩) :: rest =>
    match idOf id with
    | some n => survivors idOf (recs.filter (fun r => decide (jsonId r ≠ some (n : Int)))) rest
    | none => survivors idOf recs rest
  | recs, _ :: rest => survivors idOf recs rest

/-- A store that holds one record, of id 1. -/
def exampleStore : Store :=
  ⟨[⟨1, JVal.str "temp", JVal.num 21, JVal.null⟩], 2⟩

/-- A create followed by the delete of id 1. -/
def exampleRequests : List Request :=
  [Request.create [("nombre", JVal.str "hum"), ("valor", JVal.num 0)], Request.delete "1"]

/-- A remote client that answers every query with `{ data: null, error: null }`
and keeps no state; used to instantiate the general statements. -/
def idleClient : Client Unit := fun _ s => (⟨JVal.null, none⟩, s)

/-- A remote client that answers every query with the given error. -/
def failingClient (e : PostgrestError) : Client Unit := fun _ s => (⟨JVal.null, some e⟩, s)

/-- The 500 answer of the `catch` blocks for an error with message `m`. -/
def serverError (m : String) : Response :=
  ⟨500, Body.json (JVal.obj [("error", JVal.str m)])⟩

/-! ## Properties of the handlers -/

theorem truthy_eq_false_iff (v : JVal) :
    truthy v = false ↔
      v = JVal.undefined ∨ v = JVal.null ∨ v = JVal.bool false ∨ v = JVal.num 0 ∨
        v = JVal.str "" := by
  cases v <;> simp [truthy]

theorem isUndefined_eq_true_iff (v : JVal) : isUndefined v = true ↔ v = JVal.undefined := by
  cases v <;> simp [isUndefined]

/-- The presence check of line 65 as a proposition on the body. -/
theorem presence_check_iff (body : JObj) :
    (!truthy (body.get "nombre") || isUndefined (body.get "valor")) = true ↔
      (truthy (body.get "nombre") = false ∨ body.get "valor" = JVal.undefined) := by
  simp [isUndefined_eq_true_iff]

theorem postDatos_rejected {σ : Type} (supabase : Client σ) (body : JObj) (s : σ)
    (h : (!truthy (body.get "nombre") || isUndefined (body.get "valor")) = true) :
    postDatos supabase body s =
      ⟨⟨400, Body.json (JVal.obj [("error", JVal.str "Nombre y valor son requeridos")])⟩,
        s, [], []⟩ := by
  simp only [postDatos, h, if_true, catchError]

theorem postDatos_accepted_ok {σ : Type} (supabase : Client σ) (body : JObj) (s : σ)
    (h : (!truthy (body.get "nombre") || isUndefined (body.get "valor")) = false)
    (hr : (supabase (insertQuery (body.get "nombre") (body.get "valor")) s).1.error = none) :
    postDatos supabase body s =
      ⟨⟨201, Body.json (supabase (insertQuery (body.get "nombre") (body.get "valor")) s).1.data⟩,
        (supabase (insertQuery (body.get "nombre") (body.get "valor")) s).2,
        [insertQuery (body.get "nombre") (body.get "valor")], []⟩ := by
  simp only [postDatos, h, hr, catchError]
  rfl

theorem postDatos_accepted_error {σ : Type} (supabase : Client σ) (body : JObj) (s : σ)
    (e : PostgrestError)
    (h : (!truthy (body.get "nombre") || isUndefined (body.get "valor")) = false)
    (hr : (supabase (insertQuery (body.get "nombre") (body.get "valor")) s).1.error = some e) :
    postDatos supabase body s =
      ⟨serverError e.message,
        (supabase (insertQuery (body.get "nombre") (body.get "valor")) s).2,
        [insertQuery (body.get "nombre") (body.get "valor")], [("Error al crear dato:", e)]⟩ := by
  simp only [postDatos, h, hr, catchError]
  rfl

theorem getDatos_ok {σ : Type} (supabase : Client σ) (s : σ)
    (hr : (supabase listQuery s).1.error = none) :
    getDatos supabase s =
      ⟨⟨200, Body.json (supabase listQuery s).1.data⟩, (supabase listQuery s).2,
        [listQuery], []⟩ := by
  simp only [getDatos, hr, catchError]

theorem getDatos_error {σ : Type} (supabase : Client σ) (s : σ) (e : PostgrestError)
    (hr : (supabase listQuery s).1.error = some e) :
    getDatos supabase s =
      ⟨serverError e.message, (supabase listQuery s).2, [listQuery],
        [("Error al obtener datos:", e)]⟩ := by
  simp only [getDatos, hr, catchError]
  rfl

theorem putDatos_error {σ : Type} (supabase : Client σ) (id : String) (body : JObj)
    (now : String) (s : σ) (e : PostgrestError)
    (hr : (supabase (updateQuery id (body.get "nombre") (body.get "valor") now) s).1.error
      = some e) :
    putDatos supabase id body now s =
      ⟨serverError e.message,
        (supabase (updateQuery id (body.get "nombre") (body.get "valor") now) s).2,
        [updateQuery id (body.get "nombre") (body.get "valor") now],
        [("Error al actualizar dato:", e)]⟩ := by
  simp only [putDatos, hr, catchError]
  rfl

theorem putDatos_not_found {σ : Type} (supabase : Client σ) (id : String) (body : JObj)
    (now : String) (s : σ)
    (hr : (supabase (updateQuery id (body.get "nombre") (body.get "valor") now) s).1.error
      = none)
    (hd : truthy (supabase (updateQuery id (body.get "nombre") (body.get "valor") now) s).1.data
      = false) :
    putDatos supabase id body now s =
      ⟨⟨404, Body.json (JVal.obj [("error", JVal.str "Dato no encontrado")])⟩,
        (supabase (updateQuery id (body.get "nombre") (body.get "valor") now) s).2,
        [updateQuery id (body.get "nombre") (body.get "valor") now], []⟩ := by
  simp only [putDatos, hr, hd, catchError]
  rfl

theorem putDatos_ok {σ : Type} (supabase : Client σ) (id : String) (body : JObj)
    (now : String) (s : σ)
    (hr : (supabase (updateQuery id (body.get "nombre") (body.get "valor") now) s).1.error
      = none)
    (hd : truthy (supabase (updateQuery id (body.get "nombre") (body.get "valor") now) s).1.data
      = true) :
    putDatos supabase id body now s =
      ⟨⟨200, Body.json
          (supabase (updateQuery id (body.get "nombre") (body.get "valor") now) s).1.data⟩,
        (supabase (updateQuery id (body.get "nombre") (body.get "valor") now) s).2,
        [updateQuery id (body.get "nombre") (body.get "valor") now], []⟩ := by
  simp only [putDatos, hr, hd, catchError]
  rfl

theorem deleteDatos_ok {σ : Type} (supabase : Client σ) (id : String) (s : σ)
    (hr : (supabase (deleteQuery id) s).1.error = none) :
    deleteDatos supabase id s =
      ⟨⟨204, Body.empty⟩, (supabase (deleteQuery id) s).2, [deleteQuery id], []⟩ := by
  simp only [deleteDatos, hr, catchError]

theorem deleteDatos_error {σ : Type} (supabase : Client σ) (id : String) (s : σ)
    (e : PostgrestError) (hr : (supabase (deleteQuery id) s).1.error = some e) :
    deleteDatos supabase id s =
      ⟨serverError e.message, (supabase (deleteQuery id) s).2, [deleteQuery id],
        [("Error al eliminar dato:", e)]⟩ := by
  simp only [deleteDatos, hr, catchError]
  rfl

/-! ### Create: the presence check -/

/-- C1: a create request is answered 400, and no remote insert is made, exactly
when `nombre` is falsy (`undefined`, `null`, `false`, `0`, `""`) or `valor` is
`undefined`; a body with a truthy `nombre` and `valor` equal to `0` or `""` is
not answered 400, one insert is issued, and when that insert reports no error
the answer is 201 with the record that the remote store returned. -/
theorem C1_create_rejected_iff_nombre_falsy_or_valor_undefined {σ : Type}
    (supabase : Client σ) (body : JObj) (s : σ) :
    ((postDatos supabase body s).response.status = 400 ↔
      ((body.get "nombre" = JVal.undefined ∨ body.get "nombre" = JVal.null ∨
          body.get "nombre" = JVal.bool false ∨ body.get "nombre" = JVal.num 0 ∨
          body.get "nombre" = JVal.str "") ∨ body.get "valor" = JVal.undefined)) ∧
    ((postDatos supabase body s).issued = [] ↔
      (postDatos supabase body s).response.status = 400) ∧
    (truthy (body.get "nombre") = true →
      (body.get "valor" = JVal.num 0 ∨ body.get "valor" = JVal.str "") →
      (postDatos supabase body s).response.status ≠ 400 ∧
      (postDatos supabase body s).issued =
        [insertQuery (body.get "nombre") (body.get "valor")] ∧
      ((supabase (insertQuery (body.get "nombre") (body.get "valor")) s).1.error = none →
        (postDatos supabase body s).response =
          ⟨201, Body.json
            (supabase (insertQuery (body.get "nombre") (body.get "valor")) s).1.data⟩)) := by
  have key : (postDatos supabase body s).response.status = 400 ↔
      (!truthy (body.get "nombre") || isUndefined (body.get "valor")) = true := by
    cases h : (!truthy (body.get "nombre") || isUndefined (body.get "valor"))
    · cases hr : (supabase (insertQuery (body.get "nombre") (body.get "valor")) s).1.error
      · simp [postDatos_accepted_ok supabase body s h hr]
      · simp [postDatos_accepted_error supabase body s _ h hr, serverError]
    · simp [postDatos_rejected supabase body s h]
  have sent : (postDatos supabase body s).issued = [] ↔
      (!truthy (body.get "nombre") || isUndefined (body.get "valor")) = true := by
    cases h : (!truthy (body.get "nombre") || isUndefined (body.get "valor"))
    · cases hr : (supabase (insertQuery (body.get "nombre") (body.get "valor")) s).1.error
      · simp [postDatos_accepted_ok supabase body s h hr]
      · simp [postDatos_accepted_error supabase body s _ h hr]
    · simp [postDatos_rejected supabase body s h]
  refine ⟨?_, ?_, ?_⟩
  · rw [key, presence_check_iff, truthy_eq_false_iff]
  · rw [key, sent]
  · intro hn hv
    have hu : isUndefined (body.get "valor") = false := by
      rcases hv with hv | hv <;> rw [hv] <;> rfl
    have h : (!truthy (body.get "nombre") || isUndefined (body.get "valor")) = false := by
      simp [hn, hu]
    refine ⟨fun h400 => ?_, ?_, ?_⟩
    · rw [key.mp h400] at h
      exact Bool.noConfusion h
    · cases hr : (supabase (insertQuery (body.get "nombre") (body.get "valor")) s).1.error
      · rw [postDatos_accepted_ok supabase body s h hr]
      · rw [postDatos_accepted_error supabase body s _ h hr]
    · intro hr
      rw [postDatos_accepted_ok supabase body s h hr]

/-- Witness of C1: the body `{ nombre: "temp", valor: 0 }` against a remote
side that reports no error. -/
theorem C1_create_rejected_iff_nombre_falsy_or_valor_undefined_witness :
    (postDatos idleClient [("nombre", JVal.str "temp"), ("valor", JVal.num 0)] ()).response.status
        ≠ 400 ∧
      (postDatos idleClient [("nombre", JVal.str "temp"), ("valor", JVal.num 0)] ()).response =
        ⟨201, Body.json JVal.null⟩ :=
  have h := (C1_create_rejected_iff_nombre_falsy_or_valor_undefined idleClient
    [("nombre", JVal.str "temp"), ("valor", JVal.num 0)] ()).2.2 rfl (Or.inl rfl)
  ⟨h.1, h.2.2 rfl⟩

/-! ### Remote errors -/

/-- C2: in each of list, create (with a body that passes the presence check),
update and delete, a remote result that carries an error with message `m` is
answered with status 500 and the JSON body `{ error: m }`. -/
theorem C2_remote_error_answered_500_with_message {σ : Type} (supabase : Client σ) (s : σ)
    (e : PostgrestError) :
    ((supabase listQuery s).1.error = some e →
      (getDatos supabase s).response =
        ⟨500, Body.json (JVal.obj [("error", JVal.str e.message)])⟩) ∧
    (∀ body : JObj, truthy (body.get "nombre") = true → body.get "valor" ≠ JVal.undefined →
      (supabase (insertQuery (body.get "nombre") (body.get "valor")) s).1.error = some e →
      (postDatos supabase body s).response =
        ⟨500, Body.json (JVal.obj [("error", JVal.str e.message)])⟩) ∧
    (∀ (id : String) (body : JObj) (now : String),
      (supabase (updateQuery id (body.get "nombre") (body.get "valor") now) s).1.error = some e →
      (putDatos supabase id body now s).response =
        ⟨500, Body.json (JVal.obj [("error", JVal.str e.message)])⟩) ∧
    (∀ id : String, (supabase (deleteQuery id) s).1.error = some e →
      (deleteDatos supabase id s).response =
        ⟨500, Body.json (JVal.obj [("error", JVal.str e.message)])⟩) := by
  refine ⟨fun hr => ?_, fun body hn hv hr => ?_, fun id body now hr => ?_, fun id hr => ?_⟩
  · rw [getDatos_error supabase s e hr]; rfl
  · have hu : isUndefined (body.get "valor") = false := by
      cases h : isUndefined (body.get "valor")
      · rfl
      · exact absurd ((isUndefined_eq_true_iff _).mp h) hv
    have h : (!truthy (body.get "nombre") || isUndefined (body.get "valor")) = false := by
      simp [hn, hu]
    rw [postDatos_accepted_error supabase body s e h hr]; rfl
  · rw [putDatos_error supabase id body now s e hr]; rfl
  · rw [deleteDatos_error supabase id s e hr]; rfl

/-- Witness of C2: the four handlers against a remote side that fails with the
message `"connection refused"`. -/
theorem C2_remote_error_answered_500_with_message_witness :
    (getDatos (failingClient ⟨"connection refused", "08006"⟩) ()).response =
        ⟨500, Body.json (JVal.obj [("error", JVal.str "connection refused")])⟩ ∧
      (postDatos (failingClient ⟨"connection refused", "08006"⟩)
          [("nombre", JVal.str "temp"), ("valor", JVal.num 0)] ()).response =
        ⟨500, Body.json (JVal.obj [("error", JVal.str "connection refused")])⟩ ∧
      (putDatos (failingClient ⟨"connection refused", "08006"⟩) "3" [] "2024-01-01T00:00:00.000Z"
          ()).response =
        ⟨500, Body.json (JVal.obj [("error", JVal.str "connection refused")])⟩ ∧
      (deleteDatos (failingClient ⟨"connection refused", "08006"⟩) "3" ()).response =
        ⟨500, Body.json (JVal.obj [("error", JVal.str "connection refused")])⟩ :=
  have h := C2_remote_error_answered_500_with_message
    (failingClient ⟨"connection refused", "08006"⟩) () ⟨"connection refused", "08006"⟩
  ⟨h.1 rfl,
    h.2.1 [("nombre", JVal.str "temp"), ("valor", JVal.num 0)] rfl (fun h0 => JVal.noConfusion h0)
      rfl,
    h.2.2.1 "3" [] "2024-01-01T00:00:00.000Z" rfl, h.2.2.2 "3" rfl⟩

/-! ### Delete -/

/-- C4: for every `id`, a delete whose remote call reports no error is answered
204 with an empty body, and the delete handler never answers 404. -/
theorem C4_delete_answers_204_never_404 {σ : Type} (supabase : Client σ) (id : String) (s : σ) :
    ((supabase (deleteQuery id) s).1.error = none →
      (deleteDatos supabase id s).response = ⟨204, Body.empty⟩) ∧
    (deleteDatos supabase id s).response.status ≠ 404 := by
  constructor
  · intro hr
    rw [deleteDatos_ok supabase id s hr]
  · cases hr : (supabase (deleteQuery id) s).1.error
    · rw [deleteDatos_ok supabase id s hr]; simp
    · rw [deleteDatos_error supabase id s _ hr]; simp [serverError]

/-- Witness of C4: a delete of id `"42"` against a remote side that reports no
error. -/
theorem C4_delete_answers_204_never_404_witness :
    (deleteDatos idleClient "42" ()).response = ⟨204, Body.empty⟩ :=
  (C4_delete_answers_204_never_404 idleClient "42" ()).1 rfl

/-! ### List -/

/-- C7 (as amended): every create request answered 400 carries the JSON body
`{ error: "Nombre y valor son requeridos" }`. -/
theorem C7_create_400_body_is_spanish_message {σ : Type} (supabase : Client σ) (body : JObj)
    (s : σ) (h : (postDatos supabase body s).response.status = 400) :
    (postDatos supabase body s).response.body =
      Body.json (JVal.obj [("error", JVal.str "Nombre y valor son requeridos")]) := by
  cases hc : (!truthy (body.get "nombre") || isUndefined (body.get "valor"))
  · cases hr : (supabase (insertQuery (body.get "nombre") (body.get "valor")) s).1.error
    · rw [postDatos_accepted_ok supabase body s hc hr] at h
      exact absurd h (by simp)
    · rw [postDatos_accepted_error supabase body s _ hc hr] at h
      exact absurd h (by simp [serverError])
  · rw [postDatos_rejected supabase body s hc]

/-- Witness of C7 (as amended): the empty body `{}`. -/
theorem C7_create_400_body_is_spanish_message_witness :
    (postDatos idleClient [] ()).response.status = 400 ∧
      (postDatos idleClient [] ()).response.body =
        Body.json (JVal.obj [("error", JVal.str "Nombre y valor son requeridos")]) :=
  ⟨rfl, C7_create_400_body_is_spanish_message idleClient [] () rfl⟩

/-- C7 (counterexample): the create request with the empty body `{}` is
answered 400 and the `error` field of its body is not the text
"Name and value are required". -/
theorem C7_create_400_body_is_not_english_message :
    (postDatos idleClient [] ()).response.status = 400 ∧
      (postDatos idleClient [] ()).response.body ≠
        Body.json (JVal.obj [("error", JVal.str "Name and value are required")]) := by
  refine ⟨rfl, ?_⟩
  rw [postDatos_rejected idleClient [] () rfl]
  simp

/-! ### Cross-origin callback -/

/-- C8: for every allow-list and every origin, absent ones included, the
cross-origin callback is called with no error and `true`. -/
theorem C8_cors_permits_every_origin (allowed : List String) (origin : Option String) :
    corsOrigin allowed origin = ⟨none, true⟩ ∧
      corsOrigin allowedOrigins origin = ⟨none, true⟩ := by
  constructor <;> simp only [corsOrigin, ite_self]

/-! ### Update -/

/-- C9: an update request is never answered 400 and issues exactly one query:
an update of table `datos` filtered on `id` equal to the path parameter, whose
payload is the three fields `nombre` and `valor`, each as read from the body
(`undefined` when absent), and `updated_at`, the clock reading; the payload has
no `id` field and depends on no other field of the body. -/
theorem C9_update_unvalidated_three_field_payload {σ : Type} (supabase : Client σ)
    (id : String) (body : JObj) (now : String) (s : σ) :
    (putDatos supabase id body now s).response.status ≠ 400 ∧
    (putDatos supabase id body now s).issued =
      [updateQuery id (body.get "nombre") (body.get "valor") now] ∧
    (updateQuery id (body.get "nombre") (body.get "valor") now).table = "datos" ∧
    (updateQuery id (body.get "nombre") (body.get "valor") now).filters = [("id", id)] ∧
    (updateQuery id (body.get "nombre") (body.get "valor") now).verb =
      Verb.update [("nombre", body.get "nombre"), ("valor", body.get "valor"),
        ("updated_at", JVal.str now)] ∧
    JObj.get [("nombre", body.get "nombre"), ("valor", body.get "valor"),
        ("updated_at", JVal.str now)] "id" = JVal.undefined := by
  refine ⟨?_, ?_, rfl, rfl, rfl, ?_⟩
  · cases hr : (supabase (updateQuery id (body.get "nombre") (body.get "valor") now) s).1.error
    · cases hd : truthy
        (supabase (updateQuery id (body.get "nombre") (body.get "valor") now) s).1.data
      · rw [putDatos_not_found supabase id body now s hr hd]; simp
      · rw [putDatos_ok supabase id body now s hr hd]; simp
    · rw [putDatos_error supabase id body now s _ hr]; simp [serverError]
  · cases hr : (supabase (updateQuery id (body.get "nombre") (body.get "valor") now) s).1.error
    · cases hd : truthy
        (supabase (updateQuery id (body.get "nombre") (body.get "valor") now) s).1.data
      · rw [putDatos_not_found supabase id body now s hr hd]
      · rw [putDatos_ok supabase id body now s hr hd]
    · rw [putDatos_error supabase id body now s _ hr]
  · simp [JObj.get]

/-- C10: the answer of the update handler is decided by the remote result with
the error first: an error gives 500 with its message, whatever `data` is; no
error and a falsy `data` give 404 with `{ error: "Dato no encontrado" }`; no
error and a truthy `data` give 200 with `data` as body; hence a 404 answer
means that the remote result had neither an error nor a row. -/
theorem C10_update_answer_error_first {σ : Type} (supabase : Client σ) (id : String)
    (body : JObj) (now : String) (s : σ) :
    (∀ e, (supabase (updateQuery id (body.get "nombre") (body.get "valor") now) s).1.error
        = some e →
      (putDatos supabase id body now s).response =
        ⟨500, Body.json (JVal.obj [("error", JVal.str e.message)])⟩) ∧
    ((supabase (updateQuery id (body.get "nombre") (body.get "valor") now) s).1.error = none →
      truthy (supabase (updateQuery id (body.get "nombre") (body.get "valor") now) s).1.data
        = false →
      (putDatos supabase id body now s).response =
        ⟨404, Body.json (JVal.obj [("error", JVal.str "Dato no encontrado")])⟩) ∧
    ((supabase (updateQuery id (body.get "nombre") (body.get "valor") now) s).1.error = none →
      truthy (supabase (updateQuery id (body.get "nombre") (body.get "valor") now) s).1.data
        = true →
      (putDatos supabase id body now s).response =
        ⟨200, Body.json
          (supabase (updateQuery id (body.get "nombre") (body.get "valor") now) s).1.data⟩) ∧
    ((putDatos supabase id body now s).response.status = 404 →
      (supabase (updateQuery id (body.get "nombre") (body.get "valor") now) s).1.error = none ∧
      truthy (supabase (updateQuery id (body.get "nombre") (body.get "valor") now) s).1.data
        = false) := by
  refine ⟨fun e hr => ?_, fun hr hd => ?_, fun hr hd => ?_, fun h => ?_⟩
  · rw [putDatos_error supabase id body now s e hr]; rfl
  · rw [putDatos_not_found supabase id body now s hr hd]
  · rw [putDatos_ok supabase id body now s hr hd]
  · cases hr : (supabase (updateQuery id (body.get "nombre") (body.get "valor") now) s).1.error
    · cases hd : truthy
        (supabase (updateQuery id (body.get "nombre") (body.get "valor") now) s).1.data
      · exact ⟨rfl, rfl⟩
      · rw [putDatos_ok supabase id body now s hr hd] at h
        exact absurd h (by simp)
    · rw [putDatos_error supabase id body now s _ hr] at h
      exact absurd h (by simp [serverError])

/-- Witness of C10: a remote result with an error and `data` null is answered
500, and one with neither error nor row is answered 404. -/
theorem C10_update_answer_error_first_witness :
    (putDatos (failingClient ⟨"timeout", "57014"⟩) "3" [] "2024-01-01T00:00:00.000Z"
        ()).response = ⟨500, Body.json (JVal.obj [("error", JVal.str "timeout")])⟩ ∧
      (putDatos idleClient "3" [] "2024-01-01T00:00:00.000Z" ()).response =
        ⟨404, Body.json (JVal.obj [("error", JVal.str "Dato no encontrado")])⟩ :=
  ⟨(C10_update_answer_error_first (failingClient ⟨"timeout", "57014"⟩) "3" []
      "2024-01-01T00:00:00.000Z" ()).1 ⟨"timeout", "57014"⟩ rfl,
    (C10_update_answer_error_first idleClient "3" [] "2024-01-01T00:00:00.000Z" ()).2.1 rfl rfl⟩

/-! ## The handlers over the reference store -/

theorem refClient_list (idOf : String → Option Nat) (s : Store) :
    refClient idOf listQuery s = (⟨JVal.arr ((sortById s.rows).map Row.toJson), none⟩, s) := by
  simp [refClient, listQuery, supabaseFrom, Table.select, Query.order, rowFilter, commit, shape]

theorem refClient_insert (idOf : String → Option Nat) (nombre valor : JVal) (s : Store) :
    refClient idOf (insertQuery nombre valor) s =
      (⟨(Row.mk s.nextId (columnOf nombre) (columnOf valor) JVal.null).toJson, none⟩,
        ⟨s.rows ++ [Row.mk s.nextId (columnOf nombre) (columnOf valor) JVal.null],
          s.nextId + 1⟩) := by
  simp [refClient, insertQuery, supabaseFrom, Table.insert, Query.select, Query.single, rowFilter,
    commit, shape, insertRows, JObj.get]

theorem refClient_delete_some (idOf : String → Option Nat) (id : String) (n : Nat) (s : Store)
    (h : idOf id = some n) :
    refClient idOf (deleteQuery id) s =
      (⟨JVal.null, none⟩, ⟨s.rows.filter (fun r => decide (r.id ≠ n)), s.nextId⟩) := by
  simp [refClient, deleteQuery, supabaseFrom, Table.delete, Query.eq, rowFilter, h, commit, shape]

theorem refClient_delete_none (idOf : String → Option Nat) (id : String) (s : Store)
    (h : idOf id = none) :
    refClient idOf (deleteQuery id) s = (⟨JVal.null, some (invalidId id)⟩, s) := by
  simp [refClient, deleteQuery, supabaseFrom, Table.delete, Query.eq, rowFilter, h]

/-- An update whose `id` matches no row is reported as an error by the
reference client, and the store is left as it was. -/
theorem refClient_update_no_match (idOf : String → Option Nat) (id : String)
    (nombre valor : JVal) (now : String) (s : Store)
    (h : ∀ n, idOf id = some n → ∀ r ∈ s.rows, r.id ≠ n) :
    ∃ e, refClient idOf (updateQuery id nombre valor now) s = (⟨JVal.null, some e⟩, s) := by
  cases hid : idOf id with
  | none =>
    exact ⟨invalidId id, by
      simp [refClient, updateQuery, supabaseFrom, Table.update, Query.eq, Query.select,
        Query.single, rowFilter, hid]⟩
  | some n =>
    have hf : s.rows.filter (fun r => decide (r.id = n)) = [] := by
      simp only [List.filter_eq_nil_iff, decide_eq_true_eq]
      exact fun r hr => h n hid r hr
    exact ⟨notOneRow, by
      simp [refClient, updateQuery, supabaseFrom, Table.update, Query.eq, Query.select,
        Query.single, rowFilter, hid, commit, shape, hf]⟩

/-- Over the reference store, an update whose `id` matches no row is answered
500 and leaves the store as it was. -/
theorem putDatos_refClient_no_match (idOf : String → Option Nat) (id : String) (body : JObj)
    (now : String) (s : Store) (h : ∀ n, idOf id = some n → ∀ r ∈ s.rows, r.id ≠ n) :
    (putDatos (refClient idOf) id body now s).response.status = 500 ∧
      (putDatos (refClient idOf) id body now s).store = s := by
  obtain ⟨e, he⟩ := refClient_update_no_match idOf id (body.get "nombre") (body.get "valor")
    now s h
  have hr : (refClient idOf (updateQuery id (body.get "nombre") (body.get "valor") now)
      s).1.error = some e := by rw [he]
  rw [putDatos_error (refClient idOf) id body now s e hr, he]
  exact ⟨rfl, rfl⟩

theorem jsonId_toJson (r : Row) : jsonId r.toJson = some (r.id : Int) := by
  simp [jsonId, Row.toJson, JObj.get]

theorem getDatos_refClient (idOf : String → Option Nat) (s : Store) :
    getDatos (refClient idOf) s =
      ⟨⟨200, Body.json (JVal.arr ((sortById s.rows).map Row.toJson))⟩, s, [listQuery], []⟩ := by
  have hr : (refClient idOf listQuery s).1.error = none := by rw [refClient_list]
  rw [getDatos_ok (refClient idOf) s hr, refClient_list]

theorem postDatos_refClient_accepted (idOf : String → Option Nat) (body : JObj) (s : Store)
    (h : (!truthy (body.get "nombre") || isUndefined (body.get "valor")) = false) :
    postDatos (refClient idOf) body s =
      ⟨⟨201, Body.json (Row.mk s.nextId (columnOf (body.get "nombre"))
          (columnOf (body.get "valor")) JVal.null).toJson⟩,
        ⟨s.rows ++ [Row.mk s.nextId (columnOf (body.get "nombre"))
          (columnOf (body.get "valor")) JVal.null], s.nextId + 1⟩,
        [insertQuery (body.get "nombre") (body.get "valor")], []⟩ := by
  have hr : (refClient idOf (insertQuery (body.get "nombre") (body.get "valor")) s).1.error
      = none := by rw [refClient_insert]
  rw [postDatos_accepted_ok (refClient idOf) body s h hr, refClient_insert]

theorem deleteDatos_refClient_some (idOf : String → Option Nat) (id : String) (n : Nat)
    (s : Store) (h : idOf id = some n) :
    deleteDatos (refClient idOf) id s =
      ⟨⟨204, Body.empty⟩, ⟨s.rows.filter (fun r => decide (r.id ≠ n)), s.nextId⟩,
        [deleteQuery id], []⟩ := by
  have hr : (refClient idOf (deleteQuery id) s).1.error = none := by
    rw [refClient_delete_some idOf id n s h]
  rw [deleteDatos_ok (refClient idOf) id s hr, refClient_delete_some idOf id n s h]

theorem deleteDatos_refClient_none (idOf : String → Option Nat) (id : String) (s : Store)
    (h : idOf id = none) :
    deleteDatos (refClient idOf) id s =
      ⟨serverError (invalidId id).message, s, [deleteQuery id],
        [("Error al eliminar dato:", invalidId id)]⟩ := by
  have hr : (refClient idOf (deleteQuery id) s).1.error = some (invalidId id) := by
    rw [refClient_delete_none idOf id s h]
  rw [deleteDatos_error (refClient idOf) id s _ hr, refClient_delete_none idOf id s h]

theorem finalStore_append {σ : Type} (supabase : Client σ) (xs ys : List Request) (s : σ) :
    finalStore supabase (xs ++ ys) s = finalStore supabase ys (finalStore supabase xs s) := by
  induction xs generalizing s with
  | nil => rfl
  | cons x xs ih => exact ih (handle supabase x s).store

theorem map_toJson_filter (rows : List Row) (n : Nat) :
    (rows.filter (fun r => decide (r.id ≠ n))).map Row.toJson =
      (rows.map Row.toJson).filter (fun r => decide (jsonId r ≠ some (n : Int))) := by
  rw [List.filter_map]
  congr 2
  funext r
  simp [Function.comp, jsonId_toJson]

/-- One create or delete request over a well-formed reference store: the store
stays well-formed, its rows are the records that `survivors` reads off the
exchange, the sequence does not go back, and an id that the sequence has passed
and that no row carries is carried by no row afterwards. -/
theorem handle_refClient_step (idOf : String → Option Nat) (x : Request) (s : Store)
    (hx : x.isCreateOrDelete = true) (hwf : s.WF) (rest : List (Request × Response)) :
    (handle (refClient idOf) x s).store.WF ∧
    survivors idOf (s.rows.map Row.toJson) ((x, (handle (refClient idOf) x s).response) :: rest)
      = survivors idOf ((handle (refClient idOf) x s).store.rows.map Row.toJson) rest ∧
    s.nextId ≤ (handle (refClient idOf) x s).store.nextId ∧
    ∀ n, n < s.nextId → (∀ r ∈ s.rows, r.id ≠ n) →
      ∀ r ∈ (handle (refClient idOf) x s).store.rows, r.id ≠ n := by
  cases x with
  | list => exact absurd hx (by simp [Request.isCreateOrDelete])
  | update id body now => exact absurd hx (by simp [Request.isCreateOrDelete])
  | create body =>
    cases hc : (!truthy (body.get "nombre") || isUndefined (body.get "valor"))
    · simp only [handle, postDatos_refClient_accepted idOf body s hc]
      refine ⟨⟨?_, ?_⟩, ?_, Nat.le_succ _, ?_⟩
      · rw [List.map_append, List.nodup_append]
        refine ⟨hwf.1, List.nodup_singleton _, ?_⟩
        intro a ha hb
        simp only [List.map_cons, List.map_nil, List.mem_singleton] at hb
        obtain ⟨r, hr, rfl⟩ := List.mem_map.mp ha
        exact absurd hb (Nat.ne_of_lt (hwf.2 r hr))
      · intro r hr
        rcases List.mem_append.mp hr with hr | hr
        · exact Nat.lt_succ_of_lt (hwf.2 r hr)
        · rw [List.mem_singleton.mp hr]; exact Nat.lt_succ_self _
      · simp [survivors]
      · intro n hn hfree r hr
        rcases List.mem_append.mp hr with hr | hr
        · exact hfree r hr
        · rw [List.mem_singleton.mp hr]; exact Nat.ne_of_gt hn
    · simp only [handle, postDatos_rejected (refClient idOf) body s hc]
      exact ⟨hwf, by simp [survivors], Nat.le_refl _, fun n _ hfree => hfree⟩
  | delete id =>
    cases hid : idOf id with
    | none =>
      simp only [handle, deleteDatos_refClient_none idOf id s hid]
      exact ⟨hwf, by simp [survivors, serverError], Nat.le_refl _, fun n _ hfree => hfree⟩
    | some k =>
      simp only [handle, deleteDatos_refClient_some idOf id k s hid]
      refine ⟨⟨?_, ?_⟩, ?_, Nat.le_refl _, ?_⟩
      · exact hwf.1.sublist ((List.filter_sublist _).map _)
      · exact fun r hr => hwf.2 r (List.mem_of_mem_filter hr)
      · rw [map_toJson_filter]; simp [survivors, hid]
      · exact fun n _ hfree r hr => hfree r (List.mem_of_mem_filter hr)

/-- A sequence of create and delete requests over a well-formed reference
store: the four facts of `handle_refClient_step` for the whole sequence. -/
theorem finalStore_refClient (idOf : String → Option Nat) (reqs : List Request) :
    ∀ s : Store, s.WF → (∀ x ∈ reqs, x.isCreateOrDelete = true) →
      (finalStore (refClient idOf) reqs s).WF ∧
      (finalStore (refClient idOf) reqs s).rows.map Row.toJson =
        survivors idOf (s.rows.map Row.toJson) (exchanges (refClient idOf) reqs s) ∧
      s.nextId ≤ (finalStore (refClient idOf) reqs s).nextId ∧
      ∀ n, n < s.nextId → (∀ r ∈ s.rows, r.id ≠ n) →
        ∀ r ∈ (finalStore (refClient idOf) reqs s).rows, r.id ≠ n := by
  induction reqs with
  | nil => exact fun s hwf _ => ⟨hwf, rfl, Nat.le_refl _, fun n _ hfree => hfree⟩
  | cons x xs ih =>
    intro s hwf hreqs
    have hx := hreqs x (List.mem_cons_self x xs)
    obtain ⟨h1, h2, h3, h4⟩ := handle_refClient_step idOf x s hx hwf
      (exchanges (refClient idOf) xs (handle (refClient idOf) x s).store)
    obtain ⟨i1, i2, i3, i4⟩ := ih (handle (refClient idOf) x s).store h1
      (fun y hy => hreqs y (List.mem_cons_of_mem x hy))
    refine ⟨i1, ?_, Nat.le_trans h3 i3, fun n hn hfree => ?_⟩
    · simp only [finalStore, exchanges]
      rw [i2, h2]
    · exact i4 n (Nat.lt_of_lt_of_le hn h3) (h4 n hn hfree)

theorem sortById_sorted (rows : List Row) :
    (sortById rows).Pairwise (fun a b => a.id ≤ b.id) := by
  haveI : IsTotal Row (fun a b => a.id ≤ b.id) := ⟨fun a b => Nat.le_total a.id b.id⟩
  haveI : IsTrans Row (fun a b => a.id ≤ b.id) := ⟨fun _ _ _ h1 h2 => Nat.le_trans h1 h2⟩
  exact List.sorted_insertionSort (fun a b : Row => a.id ≤ b.id) rows

theorem sortById_perm (rows : List Row) : (sortById rows).Perm rows :=
  List.perm_insertionSort (fun a b : Row => a.id ≤ b.id) rows

theorem idLe_toJson (a b : Row) : idLe a.toJson b.toJson ↔ a.id ≤ b.id := by
  simp [idLe, jsonId_toJson]

/-! ### Update of an id that matches no record -/

/-- C3 (failing input): with the single record of id 1 in the store, the update
`PUT /api/datos/7` is answered 500 with the message of the `.single()` error,
not 404; the store is left as it was. -/
theorem C3_update_of_missing_id_answered_500 :
    (putDatos (refClient decimalId) "7" [("nombre", JVal.str "temp"), ("valor", JVal.num 22)]
        "2024-01-01T00:00:00.000Z" exampleStore).response =
      ⟨500, Body.json (JVal.obj [("error", JVal.str notOneRow.message)])⟩ ∧
    (putDatos (refClient decimalId) "7" [("nombre", JVal.str "temp"), ("valor", JVal.num 22)]
        "2024-01-01T00:00:00.000Z" exampleStore).response.status ≠ 404 ∧
    (putDatos (refClient decimalId) "7" [("nombre", JVal.str "temp"), ("valor", JVal.num 22)]
        "2024-01-01T00:00:00.000Z" exampleStore).store = exampleStore :=
  ⟨rfl, by decide, rfl⟩

/-! ### List after creates and deletes -/

/-- C6 (as amended): over the reference store, after any sequence of create and
delete requests from a well-formed store, the list request is answered 200 with
an array that holds exactly the records read off the exchanges by `survivors`
(the initial and created ones that no later delete removed), sorted ascending
by `id`; and for a delete of an id that the store's sequence had already passed
when the delete was handled, no listed record carries that id. -/
theorem C6_list_after_creates_and_deletes (idOf : String → Option Nat) (s0 : Store)
    (hwf : s0.WF) (reqs : List Request) (hreqs : ∀ x ∈ reqs, x.isCreateOrDelete = true) :
    ∃ items : List JVal,
      (getDatos (refClient idOf) (finalStore (refClient idOf) reqs s0)).response =
        ⟨200, Body.json (JVal.arr items)⟩ ∧
      items.Perm
        (survivors idOf (s0.rows.map Row.toJson) (exchanges (refClient idOf) reqs s0)) ∧
      items.Pairwise idLe ∧
      ∀ (before after : List Request) (id : String) (n : Nat),
        reqs = before ++ Request.delete id :: after → idOf id = some n →
        n < (finalStore (refClient idOf) before s0).nextId →
        ∀ r ∈ items, jsonId r ≠ some (n : Int) := by
  obtain ⟨-, hsurv, -, -⟩ := finalStore_refClient idOf reqs s0 hwf hreqs
  refine ⟨(sortById (finalStore (refClient idOf) reqs s0).rows).map Row.toJson, ?_, ?_, ?_, ?_⟩
  · rw [getDatos_refClient]
  · rw [← hsurv]
    exact (sortById_perm _).map _
  · rw [List.pairwise_map]
    exact (sortById_sorted _).imp (fun {a b} h => (idLe_toJson a b).mpr h)
  · intro before after id n hsplit hid hn r hr
    obtain ⟨row, hrow, rfl⟩ := List.mem_map.mp hr
    have hrow' : row ∈ (finalStore (refClient idOf) reqs s0).rows :=
      (sortById_perm _).subset hrow
    have hb : ∀ x ∈ before, x.isCreateOrDelete = true := fun x hx =>
      hreqs x (by rw [hsplit]; exact List.mem_append_left _ hx)
    have ha : ∀ x ∈ after, x.isCreateOrDelete = true := fun x hx =>
      hreqs x (by rw [hsplit]; exact List.mem_append_right _ (List.mem_cons_of_mem _ hx))
    obtain ⟨bwf, -, -, -⟩ := finalStore_refClient idOf before s0 hwf hb
    have hstep : finalStore (refClient idOf) reqs s0 =
        finalStore (refClient idOf) after
          ⟨(finalStore (refClient idOf) before s0).rows.filter (fun r => decide (r.id ≠ n)),
            (finalStore (refClient idOf) before s0).nextId⟩ := by
      rw [hsplit, finalStore_append]
      simp only [finalStore, handle, deleteDatos_refClient_some idOf id n _ hid]
    have dwf : Store.WF
        ⟨(finalStore (refClient idOf) before s0).rows.filter (fun r => decide (r.id ≠ n)),
          (finalStore (refClient idOf) before s0).nextId⟩ :=
      ⟨bwf.1.sublist ((List.filter_sublist _).map _),
        fun r hr => bwf.2 r (List.mem_of_mem_filter hr)⟩
    obtain ⟨-, -, -, hkeep⟩ := finalStore_refClient idOf after _ dwf ha
    rw [hstep] at hrow'
    have hne : row.id ≠ n := hkeep n hn
      (fun r hr => by simpa using (List.mem_filter.mp hr).2) row hrow'
    rw [jsonId_toJson]
    intro heq
    exact hne (Int.ofNat.inj (Option.some.inj heq))

/-- Witness of C6 (as amended): from the store holding the record of id 1, a
create followed by the delete of id 1. -/
theorem C6_list_after_creates_and_deletes_witness :
    exampleStore.WF ∧
    ∃ items : List JVal,
      (getDatos (refClient decimalId)
        (finalStore (refClient decimalId) exampleRequests exampleStore)).response =
        ⟨200, Body.json (JVal.arr items)⟩ ∧
      items.Perm (survivors decimalId (exampleStore.rows.map Row.toJson)
        (exchanges (refClient decimalId) exampleRequests exampleStore)) ∧
      items.Pairwise idLe ∧
      ∀ (before after : List Request) (id : String) (n : Nat),
        exampleRequests = before ++ Request.delete id :: after → decimalId id = some n →
        n < (finalStore (refClient decimalId) before exampleStore).nextId →
        ∀ r ∈ items, jsonId r ≠ some (n : Int) :=
  ⟨by decide,
    C6_list_after_creates_and_deletes decimalId exampleStore (by decide) exampleRequests
      (by decide)⟩

/-- C6 (counterexample): on the empty store whose sequence stands at 1, the
delete of id 1 is answered 204, the create that follows is answered 201 and is
given id 1, and the list that follows holds the record of id 1, an id that was
deleted. -/
theorem C6_deleted_id_listed_after_later_create :
    (exchanges (refClient decimalId)
        [Request.delete "1", Request.create [("nombre", JVal.str "temp"), ("valor", JVal.num 21)]]
        ⟨[], 1⟩).map (fun x => x.2.status) = [204, 201] ∧
    (getDatos (refClient decimalId) (finalStore (refClient decimalId)
        [Request.delete "1", Request.create [("nombre", JVal.str "temp"), ("valor", JVal.num 21)]]
        ⟨[], 1⟩)).response =
      ⟨200, Body.json (JVal.arr [JVal.obj [("id", JVal.num 1), ("nombre", JVal.str "temp"),
        ("valor", JVal.num 21), ("updated_at", JVal.null)]])⟩ ∧
    jsonId (JVal.obj [("id", JVal.num 1), ("nombre", JVal.str "temp"),
        ("valor", JVal.num 21), ("updated_at", JVal.null)]) = decimalId "1" :=
  ⟨rfl, rfl, rfl⟩

end Dazzzshboard
